import Mathlib

/-!
Verification of the live departure-monitor example of the kvv-api
repository (examples/query-kvv-departures.rs): the refresh state machine,
the cooperative polling loop, the marquee renderer and the CLI front end,
embedded shallowly in Lean. Times are modelled as natural numbers counting
nanoseconds, matching the Duration values of the source.
-/

namespace KvvLive

/-- The serving line of a departure (fields used by the renderer). -/
structure ServingLine where
  symbol : String
  direction : String
deriving Repr, DecidableEq

/-- One departure record as consumed by the renderer: the countdown token
and the serving line. -/
structure Departure where
  countdown : String
  serving_line : ServingLine
deriving Repr, DecidableEq

/-- Sign-and-digits integer literal parse: an optional leading plus or
minus sign followed by a nonempty run of ASCII digits; anything else fails.
This is the shape accepted by the Rust str parse used in the source. -/
def parseSignDigits (s : String) : Option Int :=
  let p : Int × List Char :=
    match s.data with
    | '+' :: rest => (1, rest)
    | '-' :: rest => (-1, rest)
    | cs => (1, cs)
  if p.2.isEmpty then none
  else if p.2.all Char.isDigit then
    some (p.1 * ((p.2.foldl (fun a c => a * 10 + (c.toNat - '0'.toNat)) 0 : Nat) : Int))
  else none

/-- Rust i32 parsing (str parse to i32): sign-and-digits syntax and the
value must fit the 32-bit two-complement range, otherwise the parse fails. -/
def parseI32 (s : String) : Option Int :=
  match parseSignDigits s with
  | none => none
  | some n => if -2147483648 ≤ n ∧ n ≤ 2147483647 then some n else none

/-- The countdown-to-status-token mapping of the renderer
(fn countdown in parse_response): the sentinel "-9999" gives "cancelled",
the empty string gives "unknown", otherwise the string is parsed as an i32
with fallback 0; a non-positive result gives "now" and a positive result
formats the ORIGINAL string followed by " min". -/
def countdown (c : String) : String :=
  if c = "-9999" then "cancelled"
  else if c = "" then "unknown"
  else if (parseI32 c).getD 0 ≤ 0 then "now"
  else c ++ " min"

/-- The per-departure template of parse_response. -/
def formatDeparture (d : Departure) : String :=
  " :: (" ++ countdown d.countdown ++ ") [" ++ d.serving_line.symbol ++ "] "
    ++ d.serving_line.direction

/-- parse_response: map each departure through the template and fold the
pieces together into the display line. -/
def parse_response (deps : List Departure) : String :=
  (deps.map formatDeparture).foldl (fun a b => a ++ b) ""

/-- The refresh interval: Duration::from_nanos(60_000_000_000). -/
def update_interval : Nat := 60000000000

/-- The marquee window width in characters (scroll_width = 40). -/
def scroll_width : Nat := 40

/-- The frame quantum: Duration::from_nanos(75_000_000). -/
def frame_quantum : Nat := 75000000

/-- The refresh state (enum LiveStatus): InitiateUpdate (= NeedsUpdate),
UpdateInProgress (= InFlight) holding the pinned request handle and the
instant the request was started, and Idle (= Fresh) holding an instant. -/
inductive LiveStatus (H : Type) where
  | initiateUpdate : LiveStatus H
  | updateInProgress (handle : H) (update_time : Nat) : LiveStatus H
  | idle (instant : Nat) : LiveStatus H
deriving Repr, DecidableEq

/-- The result of one non-blocking poll of a suspended operation,
mirroring core Poll. -/
inductive Poll (A : Type) where
  | ready (res : A)
  | pending
deriving Repr, DecidableEq

/-- True exactly on the NeedsUpdate (InitiateUpdate) state. -/
def isNeedsUpdate {H : Type} : LiveStatus H → Bool
  | .initiateUpdate => true
  | _ => false

/-- True exactly on the InFlight (UpdateInProgress) state. -/
def isInFlight {H : Type} : LiveStatus H → Bool
  | .updateInProgress _ _ => true
  | _ => false

/-- True exactly on the Fresh (Idle) state. -/
def isFresh {H : Type} : LiveStatus H → Bool
  | .idle _ => true
  | _ => false

/-- The pending suspended-operation handle held by a state, when any. -/
def handleOf {H : Type} : LiveStatus H → Option H
  | .updateInProgress h _ => some h
  | _ => none

/-- One advancement step of the refresh state machine: the match on status
at the top of the live loop. newHandle is the handle a freshly started
request would return; poll is the non-blocking advancement of a handle; now
is the current instant. Returns the new state and the decoded payload when
an in-flight request completed, or the transport error, which the source
propagates out of the loop with the question-mark operator. -/
def advanceStep {H E : Type} (newHandle : H)
    (poll : H → Poll (Except E (List Departure))) (now : Nat) :
    LiveStatus H → Except E (LiveStatus H × Option (List Departure))
  | .initiateUpdate => .ok (.updateInProgress newHandle now, none)
  | .updateInProgress h update_time =>
    match poll h with
    | .ready (.error e) => .error e
    | .ready (.ok data) => .ok (.idle update_time, some data)
    | .pending => .ok (.updateInProgress h update_time, none)
  | .idle instant =>
    if now - instant > update_interval then .ok (.initiateUpdate, none)
    else .ok (.idle instant, none)

/-- Repeated advancement steps at the given sequence of instants, threading
the state and collecting every returned snapshot in order. -/
def advanceMany {H E : Type} (newHandle : H)
    (poll : H → Poll (Except E (List Departure))) :
    List Nat → LiveStatus H → Except E (LiveStatus H × List (List Departure))
  | [], st => .ok (st, [])
  | now :: rest, st =>
    match advanceStep newHandle poll now st with
    | .error e => .error e
    | .ok (st', snap) =>
      match advanceMany newHandle poll rest st' with
      | .error e => .error e
      | .ok (st'', snaps) => .ok (st'', snap.toList ++ snaps)

/-- The marquee window: width consecutive characters of line starting at
cursor, indices taken modulo the character length of line (the draw loop
prints the char at i % n_chars for i in cursor..cursor+width); the empty
line yields the empty window. -/
def window (line : String) (cursor width : Nat) : String :=
  if line.data.length = 0 then ""
  else String.mk ((List.range width).map
    (fun j => line.data.getD ((cursor + j) % line.data.length) ' '))

/-- The mutable state of the live loop: the rendered display line str, the
scroll_offset cursor and the refresh status. -/
structure LoopState (H : Type) where
  str : String
  scroll_offset : Nat
  status : LiveStatus H
deriving Repr, DecidableEq

/-- The initial loop state: empty line, cursor 0, InitiateUpdate. -/
def initialLoopState {H : Type} : LoopState H :=
  ⟨"", 0, .initiateUpdate⟩

/-- The observable outcome of one loop tick: the state afterwards and the
window printed this tick, if any. -/
structure TickOut (H : Type) where
  state : LoopState H
  printed : Option String
deriving Repr, DecidableEq

/-- The drawing half of a loop tick (lines computing n_chars through the
scroll_offset update): when the line is empty nothing is printed and the
cursor is untouched; otherwise the window at the current cursor is printed,
the cursor is incremented and reset to 1 once it reaches the UTF-8 byte
length of the line (the source compares against str.len()). -/
def drawStep {H : Type} (status' : LiveStatus H) (str' : String)
    (offset : Nat) : TickOut H :=
  if str'.data.length = 0 then ⟨⟨str', offset, status'⟩, none⟩
  else
    ⟨⟨str', if offset + 1 ≥ str'.utf8ByteSize then 1 else offset + 1, status'⟩,
      some (window str' offset scroll_width)⟩

/-- One full iteration of the live loop: the refresh state machine step,
then (when a snapshot arrived) recomputing the display line from it with
parse_response, then the drawing step. A transport error is propagated. -/
def tick {H E : Type} (newHandle : H)
    (poll : H → Poll (Except E (List Departure))) (now : Nat)
    (s : LoopState H) : Except E (TickOut H) :=
  match advanceStep newHandle poll now s.status with
  | .error e => .error e
  | .ok (status', snap) =>
    .ok (drawStep status'
      (match snap with
       | some data => parse_response data
       | none => s.str)
      s.scroll_offset)

/-- Running the live loop over a list of tick instants. The handle of a
request started at a given instant and the poll behaviour at a given
instant are supplied by the environment. The run stops at the first
propagated transport error. -/
def runTicks {H E : Type} (newHandle : Nat → H)
    (poll : Nat → H → Poll (Except E (List Departure))) :
    List Nat → LoopState H → Except E (LoopState H)
  | [], s => .ok s
  | now :: rest, s =>
    match tick (newHandle now) (poll now) now s with
    | .error e => .error e
    | .ok out => runTicks newHandle poll rest out.state

/-- One-shot mode: await the single fetch, propagate a transport error with
the question-mark operator, otherwise print the parsed response. Returns
the printed line or the error. -/
def oneShot {E : Type} (fetchResult : Except E (List Departure)) :
    Except E String :=
  match fetchResult with
  | .error e => .error e
  | .ok data => .ok (parse_response data)

/-- Result of the CLI argument-parsing loop: the help text was requested, a
usage error occurred (the source panics, printing a diagnostic to the error
stream and exiting with non-zero status), or a configuration was collected. -/
inductive CliResult where
  | help
  | usageError (msg : String)
  | config (station : Option Int) (n : Int) (live : Bool)
deriving Repr, DecidableEq

/-- The argument-parsing while loop of main, over the remaining arguments
and the accumulated station id, count n and live flag. Each panic of the
source (missing or malformed flag argument, unknown argument) becomes a
usageError. -/
def parseArgsLoop : List String → Option Int → Int → Bool → CliResult
  | [], station, n, live => .config station n live
  | arg :: rest, station, n, live =>
    if arg = "--help" ∨ arg = "-h" then .help
    else if arg = "-n" then
      match rest with
      | [] => .usageError "-i expects an integer argument"
      | s :: rest' =>
        match parseI32 s with
        | some m => parseArgsLoop rest' station m live
        | none => .usageError "-i expects an integer argument"
    else if arg = "-station" then
      match rest with
      | [] => .usageError "-i expects an integer argument"
      | s :: rest' =>
        match parseI32 s with
        | some idv => parseArgsLoop rest' (some idv) n live
        | none => .usageError "-i expects an integer argument"
    else if arg = "--live" ∨ arg = "-l" then parseArgsLoop rest station n true
    else .usageError ("unknown argument " ++ arg)

/-- The flags the argument loop recognises. -/
def knownFlag (a : String) : Bool :=
  a = "--help" || a = "-h" || a = "-n" || a = "-station" || a = "--live"
    || a = "-l"

/-- The outcome of main up to the first network request: usageExit models a
panic (diagnostic on the error stream, process exit with non-zero status,
no network request issued); helpExit models printing the usage text and
returning Ok (exit status 0, no network request issued); proceed means a
request for the given station is built and issued to the network. -/
inductive MainOutcome where
  | usageExit (msg : String)
  | helpExit
  | proceed (station : Int) (n : Int) (live : Bool)
deriving Repr, DecidableEq

/-- Main up to the first network request: parse the arguments (defaults
n = 2, live = false), panic when no -station argument was provided, and
otherwise proceed to issue the request. -/
def mainModel (args : List String) : MainOutcome :=
  match parseArgsLoop args none 2 false with
  | .help => .helpExit
  | .usageError m => .usageExit m
  | .config none _ _ => .usageExit "no -station argument provided"
  | .config (some st) n live => .proceed st n live

/-- Whether an outcome of main issues a network request. -/
def networkCalled : MainOutcome → Bool
  | .proceed _ _ _ => true
  | _ => false

/-- C1: from a Fresh state with timestamp t, advance(now) transitions to
NeedsUpdate exactly when now - t exceeds the fixed 60-second refresh
interval; otherwise it returns nothing and leaves the state unchanged, and
any number of repeated advance calls before the interval elapses all
return nothing and leave the state identical. -/
theorem advance_fresh_idempotent {H E : Type} (newHandle : H)
    (poll : H → Poll (Except E (List Departure))) (now t : Nat) :
    (now - t > update_interval →
      advanceStep newHandle poll now (.idle t) = .ok (.initiateUpdate, none)) ∧
    (¬ (now - t > update_interval) →
      advanceStep newHandle poll now (.idle t) = .ok (.idle t, none)) ∧
    (∀ times : List Nat, (∀ m ∈ times, ¬ (m - t > update_interval)) →
      advanceMany newHandle poll times (.idle t) = .ok (.idle t, [])) := by
  refine ⟨fun hgt => ?_, fun hle => ?_, fun times hall => ?_⟩
  · simp [advanceStep, if_pos hgt]
  · simp [advanceStep, if_neg hle]
  · induction times with
    | nil => rfl
    | cons m rest ih =>
      have hm := hall m (by simp)
      have hrest : ∀ x ∈ rest, ¬ (x - t > update_interval) := fun x hx =>
        hall x (by simp [hx])
      simp [advanceMany, advanceStep, if_neg hm, ih hrest]

/-- Witness for C1: interval expiry at 60000000001 ns, no expiry at 5 ns,
and three repeated early calls leaving the state identical. -/
theorem advance_fresh_idempotent_witness :
    advanceStep (H := Nat) (E := Unit) 0 (fun _ => Poll.pending) 60000000001
      (.idle 0) = .ok (.initiateUpdate, none) ∧
    advanceStep (H := Nat) (E := Unit) 0 (fun _ => Poll.pending) 5 (.idle 0)
      = .ok (.idle 0, none) ∧
    advanceMany (H := Nat) (E := Unit) 0 (fun _ => Poll.pending) [1, 2, 3]
      (.idle 0) = .ok (.idle 0, []) :=
  ⟨(advance_fresh_idempotent 0 (fun _ => Poll.pending) 60000000001 0).1
      (by decide),
   (advance_fresh_idempotent 0 (fun _ => Poll.pending) 5 0).2.1 (by decide),
   (advance_fresh_idempotent 0 (fun _ => Poll.pending) 0 0).2.2 [1, 2, 3]
      (by decide)⟩

/-- C3 counterexample: completing at instant 5 a request started at instant
0 yields the Fresh state carrying timestamp 0 (the start time), which is
not the Fresh state carrying the completion instant 5. -/
theorem complete_timestamp_counterexample :
    advanceStep (H := Nat) (E := Unit) 0
        (fun _ => Poll.ready (.ok [])) 5 (.updateInProgress 7 0)
      = .ok (.idle 0, some []) ∧
    (LiveStatus.idle 0 : LiveStatus Nat) ≠ .idle 5 :=
  ⟨rfl, by decide⟩

/-- C3 amended: on the tick where the in-flight request completes
successfully, advance decodes the payload, returns the snapshot, and
transitions to Fresh carrying the instant at which the request was STARTED
(the update_time stored in UpdateInProgress), not the completion instant. -/
theorem advance_complete_start_timestamp {H E : Type} (newHandle : H)
    (poll : H → Poll (Except E (List Departure))) (now t : Nat) (h : H)
    (data : List Departure) (hp : poll h = Poll.ready (.ok data)) :
    advanceStep newHandle poll now (.updateInProgress h t)
      = .ok (.idle t, some data) := by
  simp [advanceStep, hp]

/-- Witness for C3 amended at a concrete completing poll. -/
theorem advance_complete_start_timestamp_witness :
    advanceStep (H := Nat) (E := Unit) 0
        (fun _ => Poll.ready (.ok [])) 5 (.updateInProgress 7 0)
      = .ok (.idle 0, some []) :=
  advance_complete_start_timestamp 0 (fun _ => Poll.ready (.ok [])) 5 0 7 []
    rfl

/-- C4 counterexample: "+7" is parseable as the integer 7 > 0, but the
renderer outputs "+7 min" (the original string followed by " min"), not
"7 min". -/
theorem countdown_format_counterexample :
    parseI32 "+7" = some 7 ∧ (0 : Int) < 7 ∧ countdown "+7" = "+7 min" ∧
      ("+7 min" : String) ≠ "7 min" := by decide

/-- C4 amended: "-9999" maps to "cancelled"; "" maps to "unknown"; a
non-sentinel nonempty string parsing (as a Rust i32) to a value at most 0
maps to "now"; one parsing to a positive value maps to the ORIGINAL string
followed by " min" (not the canonical decimal of the parsed integer); and
a non-parseable (malformed or out of i32 range) nonempty non-sentinel
string maps to "now". -/
theorem countdown_cases :
    countdown "-9999" = "cancelled" ∧ countdown "" = "unknown" ∧
    ∀ (s : String) (n : Int), s ≠ "-9999" → s ≠ "" →
      (parseI32 s = some n → 0 < n → countdown s = s ++ " min") ∧
      (parseI32 s = some n → n ≤ 0 → countdown s = "now") ∧
      (parseI32 s = none → countdown s = "now") := by
  refine ⟨by decide, by decide, fun s n h1 h2 => ⟨?_, ?_, ?_⟩⟩
  · intro hp hn
    simp only [countdown, if_neg h1, if_neg h2, hp, Option.getD_some]
    rw [if_neg (by omega)]
  · intro hp hn
    simp only [countdown, if_neg h1, if_neg h2, hp, Option.getD_some]
    rw [if_pos hn]
  · intro hp
    simp only [countdown, if_neg h1, if_neg h2, hp, Option.getD_none]
    rw [if_pos (by omega)]

/-- Witness for C4 amended at the inputs "5", "-3" and "abc". -/
theorem countdown_cases_witness :
    countdown "5" = "5" ++ " min" ∧ countdown "-3" = "now" ∧
      countdown "abc" = "now" :=
  ⟨(countdown_cases.2.2 "5" 5 (by decide) (by decide)).1 (by decide)
      (by decide),
   (countdown_cases.2.2 "-3" (-3) (by decide) (by decide)).2.1 (by decide)
      (by decide),
   (countdown_cases.2.2 "abc" 0 (by decide) (by decide)).2.2 (by decide)⟩

/-- Helper: the character list of a nonempty-line window is the map of the
circular index function over the range of the width. -/
theorem window_data (line : String) (c w : Nat)
    (hL : line.data.length ≠ 0) :
    (window line c w).data = (List.range w).map
      (fun j => line.data.getD ((c + j) % line.data.length) ' ') := by
  simp only [window, if_neg hL]

/-- Helper: the full-width window is the rotation of the line by the
cursor. -/
theorem window_full_eq_rotate (line : String) (c : Nat)
    (hL : 0 < line.data.length) :
    (window line c line.data.length).data = line.data.rotate c := by
  have hne : line.data.length ≠ 0 := by omega
  rw [window_data line c line.data.length hne]
  apply List.ext_getElem
  · simp [List.length_rotate]
  · intro i h1 h2
    have hi : i < line.data.length := by simpa using h1
    have hmod : (c + i) % line.data.length < line.data.length :=
      Nat.mod_lt _ hL
    rw [List.getElem_map, List.getElem_range, List.getElem_rotate,
      List.getD_eq_getElem _ _ hmod, Nat.add_comm i c]

/-- C5 counterexample: for the line "ab" of character length 2 and width 3
the window is "aba" of length 3, not min(3, 2) = 2. -/
theorem window_length_counterexample :
    window "ab" 0 3 = "aba" ∧ (window "ab" 0 3).length = 3 ∧
      min 3 (("ab" : String).length) = 2 ∧ (3 : Nat) ≠ 2 := by decide

/-- C5 amended: for a line of character length L > 0 and any cursor c and
width w, the window consists of consecutive characters of the line
starting at index c taken circularly; the window of width L covers every
character of the line exactly once (it is a permutation of the line); and
the window has length w, not min(w, L) — characters repeat when w > L. -/
theorem window_circular (line : String) (c w : Nat)
    (hL : 0 < line.data.length) :
    (window line c w).data.length = w ∧
    (∀ j, j < w → (window line c w).data.getD j ' '
      = line.data.getD ((c + j) % line.data.length) ' ') ∧
    (window line c line.data.length).data.Perm line.data := by
  have hne : line.data.length ≠ 0 := by omega
  refine ⟨?_, fun j hj => ?_, ?_⟩
  · rw [window_data line c w hne]
    simp
  · rw [window_data line c w hne]
    have hjlen : j < ((List.range w).map
        (fun j => line.data.getD ((c + j) % line.data.length) ' ')).length := by
      simpa using hj
    rw [List.getD_eq_getElem _ _ hjlen, List.getElem_map, List.getElem_range]
  · rw [window_full_eq_rotate line c hL]
    exact List.rotate_perm line.data c

/-- Witness for C5 amended at the line "abc", cursor 1, width 2. -/
theorem window_circular_witness :
    (window "abc" 1 2).data.length = 2 ∧
    (window "abc" 1 2).data.getD 0 ' '
      = ("abc" : String).data.getD ((1 + 0) % ("abc" : String).data.length) ' ' ∧
    (window "abc" 1 (("abc" : String).data.length)).data.Perm
      ("abc" : String).data :=
  ⟨(window_circular "abc" 1 2 (by decide)).1,
   (window_circular "abc" 1 2 (by decide)).2.1 0 (by decide),
   (window_circular "abc" 1 2 (by decide)).2.2⟩

/-- C6 counterexample: drawing the line "ab" (character length 2) with
cursor 1, the cursor after the tick is 1, not (1 + 1) % 2 = 0: the wrap
resets to 1, not 0. -/
theorem cursor_wrap_counterexample :
    (tick (H := Nat) (E := Unit) 0 (fun _ => Poll.pending) 0
        ⟨"ab", 1, .idle 0⟩).toOption.map (fun o => o.state.scroll_offset)
      = some 1 ∧ (1 + 1) % 2 = 0 ∧ (1 : Nat) ≠ 0 := by decide

/-- Helper: a succeeding tick is the draw step applied to the post-advance
status and display line with the pre-tick cursor. -/
theorem tick_ok_eq {H E : Type} (newHandle : H)
    (poll : H → Poll (Except E (List Departure))) (now : Nat)
    (s : LoopState H) (out : TickOut H)
    (hout : tick newHandle poll now s = .ok out) :
    ∃ status' snap, advanceStep newHandle poll now s.status
        = .ok (status', snap) ∧
      out = drawStep status'
        (match snap with
         | some data => parse_response data
         | none => s.str) s.scroll_offset := by
  unfold tick at hout
  cases hadv : advanceStep newHandle poll now s.status with
  | error e => rw [hadv] at hout; cases hout
  | ok p =>
    obtain ⟨status', snap⟩ := p
    refine ⟨status', snap, rfl, ?_⟩
    rw [hadv] at hout
    cases hout
    rfl

/-- C6 amended: on every tick that draws a nonempty line the cursor
advances by one, except that when cursor + 1 reaches the UTF-8 BYTE length
of the line it is reset to 1 (the source compares scroll_offset against
str.len(), the byte length, not the character count, and wraps to 1, not
0). -/
theorem cursor_advance {H E : Type} (newHandle : H)
    (poll : H → Poll (Except E (List Departure))) (now : Nat)
    (s : LoopState H) (out : TickOut H)
    (hout : tick newHandle poll now s = .ok out)
    (hne : out.state.str.data.length ≠ 0) :
    out.state.scroll_offset =
      if s.scroll_offset + 1 ≥ out.state.str.utf8ByteSize then 1
      else s.scroll_offset + 1 := by
  obtain ⟨status', snap, hadv, hdraw⟩ := tick_ok_eq newHandle poll now s out
    hout
  subst hdraw
  unfold drawStep at hne ⊢
  by_cases hz : (match snap with
      | some data => parse_response data
      | none => s.str).data.length = 0
  · rw [if_pos hz] at hne
    exact absurd hz hne
  · rw [if_neg hz] at hne ⊢

/-- Witness for C6 amended at the line "ab" with cursor 0. -/
theorem cursor_advance_witness :
    (⟨⟨"ab", 1, .idle 0⟩, some (window "ab" 0 scroll_width)⟩
        : TickOut Nat).state.scroll_offset =
      if 0 + 1 ≥ (⟨⟨"ab", 1, .idle 0⟩, some (window "ab" 0 scroll_width)⟩
          : TickOut Nat).state.str.utf8ByteSize then 1
      else 0 + 1 :=
  cursor_advance (E := Unit) 0 (fun _ => Poll.pending) 0 ⟨"ab", 0, .idle 0⟩
    ⟨⟨"ab", 1, .idle 0⟩, some (window "ab" 0 scroll_width)⟩ rfl (by decide)

/-- C7 counterexample: two completing ticks identical apart from prior
cursors 3 and 5 end the tick with cursors 4 and 6 respectively: the cursor
is not reset to any fixed starting offset when a new snapshot arrives; it
depends on its value before the tick. -/
theorem snapshot_reset_counterexample :
    (tick (H := Nat) (E := Unit) 0
        (fun _ => Poll.ready (.ok [⟨"5", ⟨"S1", "X"⟩⟩])) 9
        ⟨"", 3, .updateInProgress 7 2⟩).toOption.map
      (fun o => o.state.scroll_offset) = some 4 ∧
    (tick (H := Nat) (E := Unit) 0
        (fun _ => Poll.ready (.ok [⟨"5", ⟨"S1", "X"⟩⟩])) 9
        ⟨"", 5, .updateInProgress 7 2⟩).toOption.map
      (fun o => o.state.scroll_offset) = some 6 ∧
    (4 : Nat) ≠ 6 := by decide

/-- C7 amended: on a tick where a snapshot arrives the display line is
recomputed from the snapshot via parse_response, but the ScrollCursor is
NOT reset to a starting offset: when the recomputed line is nonempty the
cursor continues from its pre-tick value by the ordinary draw rule, and
when the line is empty the cursor is untouched. -/
theorem snapshot_no_cursor_reset {H E : Type} (newHandle : H)
    (poll : H → Poll (Except E (List Departure))) (now : Nat)
    (s : LoopState H) (h : H) (t : Nat) (data : List Departure)
    (out : TickOut H)
    (hst : s.status = .updateInProgress h t)
    (hp : poll h = Poll.ready (.ok data))
    (hout : tick newHandle poll now s = .ok out) :
    out.state.str = parse_response data ∧
    out.state.status = .idle t ∧
    out.state.scroll_offset =
      (if (parse_response data).data.length = 0 then s.scroll_offset
       else if s.scroll_offset + 1 ≥ (parse_response data).utf8ByteSize
       then 1 else s.scroll_offset + 1) := by
  obtain ⟨status', snap, hadv, hdraw⟩ := tick_ok_eq newHandle poll now s out
    hout
  rw [hst] at hadv
  simp only [advanceStep, hp] at hadv
  cases hadv
  subst hdraw
  unfold drawStep
  by_cases hz : (parse_response data).data.length = 0
  · rw [if_pos hz, if_pos hz]
    exact ⟨rfl, rfl, rfl⟩
  · rw [if_neg hz, if_neg hz]
    exact ⟨rfl, rfl, rfl⟩

/-- Witness for C7 amended at a concrete completing tick. -/
theorem snapshot_no_cursor_reset_witness :
    (⟨⟨parse_response [⟨"5", ⟨"S1", "X"⟩⟩], 4, .idle 2⟩,
        some (window (parse_response [⟨"5", ⟨"S1", "X"⟩⟩]) 3 scroll_width)⟩
        : TickOut Nat).state.str = parse_response [⟨"5", ⟨"S1", "X"⟩⟩] ∧
    (⟨⟨parse_response [⟨"5", ⟨"S1", "X"⟩⟩], 4, .idle 2⟩,
        some (window (parse_response [⟨"5", ⟨"S1", "X"⟩⟩]) 3 scroll_width)⟩
        : TickOut Nat).state.status = .idle 2 ∧
    (⟨⟨parse_response [⟨"5", ⟨"S1", "X"⟩⟩], 4, .idle 2⟩,
        some (window (parse_response [⟨"5", ⟨"S1", "X"⟩⟩]) 3 scroll_width)⟩
        : TickOut Nat).state.scroll_offset =
      (if (parse_response [⟨"5", ⟨"S1", "X"⟩⟩]).data.length = 0 then 3
       else if 3 + 1 ≥ (parse_response [⟨"5", ⟨"S1", "X"⟩⟩]).utf8ByteSize
       then 1 else 3 + 1) :=
  snapshot_no_cursor_reset (E := Unit) 0
    (fun _ => Poll.ready (.ok [⟨"5", ⟨"S1", "X"⟩⟩])) 9
    ⟨"", 3, .updateInProgress 7 2⟩ 7 2 [⟨"5", ⟨"S1", "X"⟩⟩] _ rfl rfl rfl

/-- C2: the refresh state is exactly one of NeedsUpdate, InFlight and
Fresh; a pending suspended-operation handle exists iff the state is
InFlight, and InFlight holds exactly one handle; the poll function is
consulted only in the InFlight state; an advance step that yields a
snapshot ends in Fresh holding no handle (the handle is moved out on
completion); and a pending poll keeps the same single handle. -/
theorem refresh_state_invariant {H E : Type} (newHandle : H)
    (poll poll' : H → Poll (Except E (List Departure))) (now : Nat)
    (st st' : LiveStatus H) (snap : List Departure) (h : H) (t : Nat) :
    ((isNeedsUpdate st || isInFlight st || isFresh st) = true) ∧
    (isNeedsUpdate st = true → isInFlight st = false ∧ isFresh st = false) ∧
    (isInFlight st = true → isNeedsUpdate st = false ∧ isFresh st = false) ∧
    (isFresh st = true → isNeedsUpdate st = false ∧ isInFlight st = false) ∧
    ((handleOf st).isSome = isInFlight st) ∧
    (isInFlight st = false →
      advanceStep newHandle poll now st
        = advanceStep newHandle poll' now st) ∧
    (advanceStep newHandle poll now st = .ok (st', some snap) →
      isFresh st' = true ∧ handleOf st' = none) ∧
    (poll h = Poll.pending →
      advanceStep newHandle poll now (.updateInProgress h t)
        = .ok (.updateInProgress h t, none)) := by
  refine ⟨?_, ?_, ?_, ?_, ?_, ?_, ?_, fun hp => by simp [advanceStep, hp]⟩
  · cases st <;> rfl
  · cases st <;> simp [isNeedsUpdate, isInFlight, isFresh]
  · cases st <;> simp [isNeedsUpdate, isInFlight, isFresh]
  · cases st <;> simp [isNeedsUpdate, isInFlight, isFresh]
  · cases st <;> rfl
  · cases st with
    | initiateUpdate => intro _; rfl
    | updateInProgress h' t' => intro hc; cases hc
    | idle t' => intro _; rfl
  · cases st with
    | initiateUpdate =>
      intro hc
      cases hc
    | updateInProgress h' t' =>
      intro hc
      cases hpoll : poll h' with
      | pending => rw [advanceStep, hpoll] at hc; cases hc
      | ready r =>
        cases r with
        | error e => rw [advanceStep, hpoll] at hc; cases hc
        | ok data =>
          rw [advanceStep, hpoll] at hc
          obtain ⟨h1, h2⟩ := Prod.mk.injEq .. ▸ Except.ok.inj hc
          subst h1
          exact ⟨rfl, rfl⟩
    | idle t' =>
      intro hc
      rw [advanceStep] at hc
      by_cases hgt : now - t' > update_interval
      · rw [if_pos hgt] at hc
        cases hc
      · rw [if_neg hgt] at hc
        cases hc

/-- Witness for C2 on concrete states, a concrete completing step and a
concrete pending step. -/
theorem refresh_state_invariant_witness :
    ((handleOf (.updateInProgress 7 0 : LiveStatus Nat)).isSome
      = isInFlight (.updateInProgress 7 0 : LiveStatus Nat)) ∧
    (isFresh (.idle 0 : LiveStatus Nat) = true ∧
      handleOf (.idle 0 : LiveStatus Nat) = none) ∧
    (advanceStep (H := Nat) (E := Unit) 0 (fun _ => Poll.pending) 3
        (.updateInProgress 7 0) = .ok (.updateInProgress 7 0, none)) :=
  ⟨(refresh_state_invariant (H := Nat) (E := Unit) 0 (fun _ => Poll.pending)
      (fun _ => Poll.pending) 3 (.updateInProgress 7 0) (.idle 0) [] 7
      0).2.2.2.2.1,
   (refresh_state_invariant (H := Nat) (E := Unit) 0
      (fun _ => Poll.ready (.ok [])) (fun _ => Poll.pending) 3
      (.updateInProgress 7 0) (.idle 0) [] 7 0).2.2.2.2.2.2.1 rfl,
   (refresh_state_invariant (H := Nat) (E := Unit) 0 (fun _ => Poll.pending)
      (fun _ => Poll.pending) 3 (.updateInProgress 7 0) (.idle 0) [] 7
      0).2.2.2.2.2.2.2 rfl⟩

/-- C8: a transport error is fatal in both modes: one-shot mode aborts
with the error, and in live mode the tick that polls the failing request
propagates the error and the whole remaining run ends with it — no new
request is started after the failure and the failing request is not
silently retried. -/
theorem transport_error_fatal {H E : Type} (newHandle : Nat → H)
    (poll : Nat → H → Poll (Except E (List Departure))) (now : Nat)
    (rest : List Nat) (s : LoopState H) (h : H) (t : Nat) (e : E)
    (hst : s.status = .updateInProgress h t)
    (hp : poll now h = Poll.ready (.error e)) :
    oneShot (E := E) (.error e) = .error e ∧
    tick (newHandle now) (poll now) now s = .error e ∧
    runTicks newHandle poll (now :: rest) s = .error e := by
  have htick : tick (newHandle now) (poll now) now s = .error e := by
    rw [tick, hst, advanceStep, hp]
  exact ⟨rfl, htick, by rw [runTicks, htick]⟩

/-- Witness for C8 at a concrete failing poll with further ticks pending. -/
theorem transport_error_fatal_witness :
    oneShot (E := Unit) (.error ()) = .error () ∧
    tick (H := Nat) (E := Unit) 0 (fun _ => Poll.ready (.error ())) 4
      ⟨"x", 2, .updateInProgress 7 1⟩ = .error () ∧
    runTicks (H := Nat) (E := Unit) (fun _ => 0)
      (fun _ _ => Poll.ready (.error ())) [4, 5, 6]
      ⟨"x", 2, .updateInProgress 7 1⟩ = .error () :=
  transport_error_fatal (fun _ => 0) (fun _ _ => Poll.ready (.error ())) 4
    [5, 6] ⟨"x", 2, .updateInProgress 7 1⟩ 7 1 () rfl rfl

/-- C9: an unknown flag or a missing required -station identifier is a
fatal usage error (modelled by usageExit: diagnostic on the error stream,
non-zero exit status) reached before any network request is issued, and
--help or -h prints the usage text and exits with status 0 without any
network activity (modelled by helpExit). -/
theorem cli_usage (args rest : List String) (a m : String)
    (st : Option Int) (n n' : Int) (lv lv' : Bool) :
    (knownFlag a = false →
      parseArgsLoop (a :: rest) st n lv
        = .usageError ("unknown argument " ++ a)) ∧
    (parseArgsLoop args none 2 false = .usageError m →
      mainModel args = .usageExit m ∧ networkCalled (mainModel args) = false) ∧
    (parseArgsLoop args none 2 false = .config none n' lv' →
      mainModel args = .usageExit "no -station argument provided" ∧
      networkCalled (mainModel args) = false) ∧
    (parseArgsLoop args none 2 false = .help →
      mainModel args = .helpExit ∧ networkCalled (mainModel args) = false) := by
  refine ⟨fun hk => ?_, fun hu => ?_, fun hc => ?_, fun hh => ?_⟩
  · simp only [knownFlag, Bool.or_eq_false_iff, decide_eq_false_iff_not]
      at hk
    obtain ⟨⟨⟨⟨⟨k1, k2⟩, k3⟩, k4⟩, k5⟩, k6⟩ := hk
    rw [parseArgsLoop.eq_def]
    simp [k1, k2, k3, k4, k5, k6]
  · constructor
    · unfold mainModel
      rw [hu]
    · unfold networkCalled mainModel
      rw [hu]
  · constructor
    · unfold mainModel
      rw [hc]
    · unfold networkCalled mainModel
      rw [hc]
  · constructor
    · unfold mainModel
      rw [hh]
    · unfold networkCalled mainModel
      rw [hh]

/-- Witness for C9: an unknown flag, a missing -station and --help on
concrete argument lists. -/
theorem cli_usage_witness :
    parseArgsLoop ["--bogus"] none 2 false
      = .usageError ("unknown argument " ++ "--bogus") ∧
    (mainModel ["--bogus"] = .usageExit "unknown argument --bogus" ∧
      networkCalled (mainModel ["--bogus"]) = false) ∧
    (mainModel [] = .usageExit "no -station argument provided" ∧
      networkCalled (mainModel []) = false) ∧
    (mainModel ["--help"] = .helpExit ∧
      networkCalled (mainModel ["--help"]) = false) :=
  ⟨(cli_usage [] [] "--bogus" "" none 2 2 false false).1 (by decide),
   (cli_usage ["--bogus"] [] "" "unknown argument --bogus" none 2 2 false
      false).2.1 (by decide),
   (cli_usage [] [] "" "" none 2 2 false false).2.2.1 (by decide),
   (cli_usage ["--help"] [] "" "" none 2 2 false false).2.2.2 (by decide)⟩

/-- C10: on a tick whose display line is empty nothing is printed and the
ScrollCursor holds exactly the same value after the tick as before; on a
tick whose line is nonempty and whose cursor still holds the initial
offset 0, the printed window starts at offset 0 — so the first tick with a
nonempty line draws starting from the initial offset 0 of the initial loop
state. -/
theorem empty_line_skips {H E : Type} (newHandle : H)
    (poll : H → Poll (Except E (List Departure))) (now : Nat)
    (s : LoopState H) (out : TickOut H)
    (hout : tick newHandle poll now s = .ok out) :
    (out.state.str.data.length = 0 →
      out.printed = none ∧ out.state.scroll_offset = s.scroll_offset) ∧
    (out.state.str.data.length ≠ 0 → s.scroll_offset = 0 →
      out.printed = some (window out.state.str 0 scroll_width)) ∧
    (initialLoopState (H := H)).scroll_offset = 0 := by
  obtain ⟨status', snap, hadv, hdraw⟩ := tick_ok_eq newHandle poll now s out
    hout
  subst hdraw
  unfold drawStep
  by_cases hz : (match snap with
      | some data => parse_response data
      | none => s.str).data.length = 0
  · rw [if_pos hz]
    exact ⟨fun _ => ⟨rfl, rfl⟩, fun hne _ => absurd hz hne, rfl⟩
  · rw [if_neg hz]
    refine ⟨fun hc => absurd hc hz, fun _ hc0 => ?_, rfl⟩
    rw [hc0]

/-- Witness for C10 at a concrete empty-line tick from the initial loop
state. -/
theorem empty_line_skips_witness :
    ((⟨⟨"", 0, .updateInProgress 0 0⟩, none⟩ : TickOut Nat).printed = none ∧
      (⟨⟨"", 0, .updateInProgress 0 0⟩, none⟩
          : TickOut Nat).state.scroll_offset
        = (initialLoopState (H := Nat)).scroll_offset) ∧
    (initialLoopState (H := Nat)).scroll_offset = 0 :=
  ⟨(empty_line_skips (E := Unit) 0 (fun _ => Poll.pending) 0 initialLoopState
      ⟨⟨"", 0, .updateInProgress 0 0⟩, none⟩ rfl).1 (by decide),
   (empty_line_skips (E := Unit) 0 (fun _ => Poll.pending) 0 initialLoopState
      ⟨⟨"", 0, .updateInProgress 0 0⟩, none⟩ rfl).2.2⟩

end KvvLive
